import Mathlib

/-
Shallow embedding of src/pm25_cron_job.py (SchertzS/IRP-Air-Monitor).

The script is a single cron-invoked pass: wake the PM2.5 sensor, try to
read PM2.5 + DHT11 data with bounded retries, sleep the sensor, then
append the reading to a JSON buffer file and flush the buffer to a CSV
log once it reaches WRITE_THRESHOLD entries.  Python-level control flow
(exceptions, the bare `except Exception` at the top level, `exit()`)
is made explicit with `Except` values and an `ExitStatus`.

Time delays, print logging and LED blinking are side effects with no
bearing on data or control flow and are not modelled (the LED writes are
fire-and-forget notification).  File contents are modelled at the level
of their parse outcome: a buffer file is absent, present but with bytes
that do not decode as text, present-but-unparsable, or parses to a JSON
value.
-/

namespace PM25

/-- JSON values as stored in the buffer file by `json.dump` / read by
`json.load`.  Objects are collapsed to a single constructor: the script
never builds one, they only matter as a wrong-shaped buffer file. -/
inductive JVal where
  | jnull
  | jnum (q : ℚ)
  | jstr (s : String)
  | jarr (xs : List JVal)
  | jobj

/-- The Python exceptions that can arise in the modelled fragment. -/
inductive PyErr where
  | runtimeError
  | typeError
  | jsonDecodeError
  | unicodeDecodeError
  | attributeError
  | ioError
deriving DecidableEq, Repr

/-- Outcome of one read of a DHT11 property (`dht_device.temperature` or
`dht_device.humidity`): the adafruit driver either raises `RuntimeError`
on a timing error or returns a value that may be `None`
(the script itself notes: "some DHT return None if timing was off"). -/
inductive DhtRead where
  | raiseRT
  | val (q : Option ℚ)
deriving DecidableEq, Repr

/-- Environment of one iteration of the retry loop in `read_sensor`:
what the sensors do on this attempt.  `pmOk = false` means `pm25.read()`
raised `RuntimeError`; otherwise it returned the three standard
particulate concentrations. -/
structure Attempt where
  pmOk : Bool
  pm10 : ℚ
  pm25v : ℚ
  pm100 : ℚ
  temp : DhtRead
  hum : DhtRead
  cpuTemp : ℚ
  timestamp : String

/-- Result of one iteration of the retry loop body (the `try` block of
`read_sensor`): a `RuntimeError` is caught by the `except RuntimeError`
clause and the loop continues; any other exception escapes `read_sensor`;
otherwise the built reading is returned. -/
inductive AttemptRes where
  | failCaught
  | raiseErr (e : PyErr)
  | success (s : JVal)

/-- Line 175: `temperature_f = temperature_c * (9 / 5) + 32`. -/
def fahrenheit (c : ℚ) : ℚ := c * (9 / 5) + 32

/-- A possibly-`None` humidity value as it lands in the returned list. -/
def humJson : Option ℚ → JVal
  | none => .jnull
  | some q => .jnum q

/-- One iteration of the loop body of `read_sensor` (lines 164-199).
`pm25.read()` and the DHT property reads raise `RuntimeError` on sensor
hiccups, which the `except RuntimeError` clause catches.  A `None`
temperature makes `temperature_c * (9 / 5)` raise `TypeError`, which is
not a `RuntimeError` and escapes.  A `None` humidity is simply placed in
the returned list. -/
def oneAttempt (a : Attempt) : AttemptRes :=
  if a.pmOk = false then .failCaught
  else
    match a.temp with
    | .raiseRT => .failCaught
    | .val none => .raiseErr .typeError
    | .val (some c) =>
      match a.hum with
      | .raiseRT => .failCaught
      | .val h =>
        .success (.jarr [.jstr a.timestamp, .jnum a.cpuTemp, .jnum a.pm10,
                         .jnum a.pm25v, .jnum a.pm100, .jnum (fahrenheit c),
                         humJson h])

/-- The retry loop of `read_sensor` from attempt index `i` with `n`
attempts remaining: first success returns immediately, a caught failure
moves to the next attempt, an uncaught exception propagates, and
exhausting the attempts falls through to `return None`. -/
def readFrom (att : Nat → Attempt) (i : Nat) : Nat → Except PyErr (Option JVal)
  | 0 => .ok none
  | n + 1 =>
    match oneAttempt (att i) with
    | .failCaught => readFrom att (i + 1) n
    | .raiseErr e => .error e
    | .success s => .ok (some s)

/-- `read_sensor(retries=10, delay=2)` (lines 155-200), with the attempt
environments supplied as a function of the attempt index.  Delays are
irrelevant to data flow and dropped. -/
def read_sensor (att : Nat → Attempt) (retries : Nat := 10) :
    Except PyErr (Option JVal) :=
  readFrom att 0 retries

/-- Content of the buffer file at `BUFFER_PATH`, at the granularity the
script can distinguish: absent; present but with bytes that do not
decode as text (reading the text-mode file raises
`UnicodeDecodeError`); present and decodable but not valid JSON
(`json.load` raises `json.JSONDecodeError`); or parsing to a JSON
value. -/
inductive FileContent where
  | absent
  | undecodable
  | invalid
  | valid (v : JVal)

/-- `load_buffer()` (lines 208-220).  Returns the parsed JSON value
together with a flag recording whether the corruption warning was
printed.  An absent file returns `[]`; a `json.JSONDecodeError` is
caught, the warning is printed and `[]` is returned; valid JSON is
returned as parsed, whatever its shape.  But `json.load` first decodes
the text-mode file's bytes, and on an undecodable file that read raises
`UnicodeDecodeError` — a `ValueError` that is not a subclass of
`json.JSONDecodeError`, so the `except` clause at line 217 does not
catch it and `load_buffer` raises to its caller. -/
def load_buffer : FileContent → Except PyErr (JVal × Bool)
  | .absent => .ok (.jarr [], false)
  | .undecodable => .error .unicodeDecodeError
  | .invalid => .ok (.jarr [], true)
  | .valid v => .ok (v, false)

/-- `save_buffer(buffer)` (lines 222-229): `json.dump` over a fresh
`open(..., "w")` leaves the file holding exactly the dumped value,
replacing whatever was there. -/
def save_buffer (b : JVal) : FileContent := .valid b

/-- `WRITE_THRESHOLD = 6` (line 63). -/
def WRITE_THRESHOLD : Nat := 6

/-- `buffer.append(reading)` (line 261): appends when the loaded value
is a Python list; any other JSON shape has no `.append` attribute and
raises `AttributeError`. -/
def appendReading : JVal → JVal → Except PyErr (List JVal)
  | .jarr xs, r => .ok (xs ++ [r])
  | _, _ => .error .attributeError

/-- `write_to_csv(data_list)` (lines 232-246) as it acts on the log
rows, given whether the underlying file I/O succeeds this cycle.  On
success the whole batch is appended (then `os.sync()`); on an I/O
failure the exception propagates after a prefix of `k` rows was already
written (partial batch writes are a known risk of `writerows`). -/
def write_to_csv (ok : Bool) (k : Nat) (log rows : List JVal) :
    List JVal × Option PyErr :=
  if ok then (log ++ rows, none)
  else (log ++ rows.take k, some .ioError)

/-- Environment of one invocation: the sensor behaviour per attempt and
whether the CSV write succeeds (`csvPrefixLen` = rows written before a
failing write raises). -/
structure Env where
  att : Nat → Attempt
  csvOk : Bool
  csvPrefixLen : Nat

/-- Persistent state across invocations: the buffer file and the CSV log. -/
structure St where
  bufferFile : FileContent
  log : List JVal

/-- Process exit status as the external scheduler sees it. -/
inductive ExitStatus where
  | success
  | failure
deriving DecidableEq, Repr

/-- Externally visible steps of one invocation, in execution order:
`wake` = `wake_sensor()`, `acquire` = the `read_sensor()` call returned,
`sleep` = `sleep_sensor()` (SET pin driven low), `csvWrite` =
`write_to_csv` was invoked, `save` = `save_buffer` ran. -/
inductive Event where
  | wake
  | acquire
  | sleep
  | csvWrite
  | save
deriving DecidableEq, Repr

/-- Result of one invocation: final persistent state, exit status, and
the trace of externally visible steps. -/
structure CycleResult where
  st : St
  exit : ExitStatus
  trace : List Event

/-- Lines 268-273: the flush decision and buffer persistence.  `xs` is
the in-memory buffer after the append.  If the threshold is reached,
`write_to_csv` runs first; only if it returns does `buffer = []` and
`save_buffer` execute — if it raises, control jumps to the top-level
`except`, so the buffer file keeps its pre-cycle content and
`save_buffer` never runs.  The `except Exception` handler only prints,
so the process still ends with a success status. -/
def afterAppend (env : Env) (s : St) (xs : List JVal) : CycleResult :=
  if WRITE_THRESHOLD ≤ xs.length then
    match write_to_csv env.csvOk env.csvPrefixLen s.log xs with
    | (log2, none) =>
      { st := { bufferFile := save_buffer (.jarr []), log := log2 },
        exit := .success,
        trace := [.wake, .acquire, .sleep, .csvWrite, .save] }
    | (log2, some _) =>
      { st := { bufferFile := s.bufferFile, log := log2 },
        exit := .success,
        trace := [.wake, .acquire, .sleep, .csvWrite] }
  else
    { st := { bufferFile := save_buffer (.jarr xs), log := s.log },
      exit := .success,
      trace := [.wake, .acquire, .sleep, .save] }

/-- Lines 260-273 once a reading was obtained: load the buffer, append
the reading, then decide on the flush.  A `UnicodeDecodeError` raised
by `load_buffer` on an undecodable buffer file, like an
`AttributeError` from appending to a non-list buffer value, jumps to
the top-level `except`, which only prints (exit status still success,
no state mutated). -/
def afterReading (env : Env) (s : St) (r : JVal) : CycleResult :=
  match load_buffer s.bufferFile with
  | .error _ => { st := s, exit := .success, trace := [.wake, .acquire, .sleep] }
  | .ok (b, _) =>
    match appendReading b r with
    | .error _ => { st := s, exit := .success, trace := [.wake, .acquire, .sleep] }
    | .ok xs => afterAppend env s xs

/-- One whole invocation (the `try` block at lines 249-287).  If
`read_sensor` raises (its loop body can raise `TypeError`), control
jumps straight to the top-level `except` and `sleep_sensor()` is
skipped.  `exit()` on the no-reading path raises `SystemExit`, which
`except Exception` does not catch, and the process ends with status 0;
the `except` handler itself only prints and falls off the end of the
script, also status 0. -/
def cycle (env : Env) (s : St) : CycleResult :=
  match read_sensor env.att with
  | .error _ => { st := s, exit := .success, trace := [.wake, .acquire] }
  | .ok none => { st := s, exit := .success, trace := [.wake, .acquire, .sleep] }
  | .ok (some r) => afterReading env s r

/-- A sequence of invocations, threading the persistent state. -/
def runCycles : List Env → St → St
  | [], s => s
  | e :: es, s => runCycles es (cycle e s).st

/- Concrete inputs used by counterexamples and witnesses. -/

/-- An attempt on which every sensor read succeeds with complete data:
PM concentrations 1, 2, 3; 20 °C (= 68 °F); 40 % humidity. -/
def goodAttempt : Attempt :=
  { pmOk := true, pm10 := 1, pm25v := 2, pm100 := 3,
    temp := .val (some 20), hum := .val (some 40),
    cpuTemp := 50, timestamp := "2024-06-15 12:00:00" }

/-- The reading `read_sensor` builds from `goodAttempt`. -/
def goodSample : JVal :=
  .jarr [.jstr "2024-06-15 12:00:00", .jnum 50, .jnum 1, .jnum 2, .jnum 3,
         .jnum 68, .jnum 40]

/-- An attempt on which `pm25.read()` raises `RuntimeError`, which the
retry loop catches. -/
def rtFailAttempt : Attempt :=
  { pmOk := false, pm10 := 0, pm25v := 0, pm100 := 0,
    temp := .val (some 0), hum := .val (some 0), cpuTemp := 0, timestamp := "" }

/-- An attempt on which both sensors "succeed" but the DHT11 temperature
comes back `None`: `temperature_c * (9 / 5)` then raises `TypeError`. -/
def badTempAttempt : Attempt :=
  { pmOk := true, pm10 := 1, pm25v := 2, pm100 := 3,
    temp := .val none, hum := .val (some 40), cpuTemp := 50, timestamp := "ts" }

/-- An attempt on which everything succeeds except that the DHT11
humidity comes back `None`, which lands in the returned reading as-is. -/
def noHumAttempt : Attempt :=
  { pmOk := true, pm10 := 1, pm25v := 2, pm100 := 3,
    temp := .val (some 20), hum := .val none, cpuTemp := 50, timestamp := "ts" }

/-- A distinguishable previously-buffered row. -/
def rowTagged (s : String) : JVal := .jarr [.jstr s]

/-- Five previously-persisted rows: one short of `WRITE_THRESHOLD`. -/
def buf5 : List JVal :=
  [rowTagged "a", rowTagged "b", rowTagged "c", rowTagged "d", rowTagged "e"]

/-- Invocation environment: good reading, CSV write succeeds. -/
def envGood : Env := { att := fun _ => goodAttempt, csvOk := true, csvPrefixLen := 0 }

/-- Invocation environment: good reading, the CSV write raises before
writing any row. -/
def envWriteFail : Env := { att := fun _ => goodAttempt, csvOk := false, csvPrefixLen := 0 }

/-- Invocation environment: every attempt fails with a caught
`RuntimeError`, so `read_sensor` returns `None`. -/
def envAllFail : Env := { att := fun _ => rtFailAttempt, csvOk := true, csvPrefixLen := 0 }

/-- Invocation environment: the first attempt hits a `None` temperature
and `read_sensor` raises `TypeError`. -/
def envBadTemp : Env := { att := fun _ => badTempAttempt, csvOk := true, csvPrefixLen := 0 }

/-- Invocation environment: the reading comes back with a `None`
humidity field. -/
def envNoHum : Env := { att := fun _ => noHumAttempt, csvOk := true, csvPrefixLen := 0 }

/-- Starting state: empty persisted buffer, empty log. -/
def st0 : St := { bufferFile := .valid (.jarr []), log := [] }

/-- State with five buffered rows: the next successful reading reaches
the threshold. -/
def stBuf5 : St := { bufferFile := .valid (.jarr buf5), log := [] }

/-- State whose buffer file holds valid JSON of the wrong shape (an
object): `buffer.append` raises `AttributeError` on it. -/
def stBadBuf : St := { bufferFile := .valid .jobj, log := [] }

/-- State whose buffer file exists but holds bytes that do not decode
as text: `json.load` raises `UnicodeDecodeError` on it. -/
def stUndecodable : St := { bufferFile := .undecodable, log := [] }

/- Helper lemmas about the retry loop. -/

/-- Unfolding the retry loop when the current attempt fails with a
caught `RuntimeError`. -/
theorem readFrom_succ_fail {att : Nat → Attempt} {i n : Nat}
    (h : oneAttempt (att i) = .failCaught) :
    readFrom att i (n + 1) = readFrom att (i + 1) n := by
  simp [readFrom, h]

/-- Unfolding the retry loop when the current attempt succeeds. -/
theorem readFrom_succ_success {att : Nat → Attempt} {i n : Nat} {s : JVal}
    (h : oneAttempt (att i) = .success s) :
    readFrom att i (n + 1) = .ok (some s) := by
  simp [readFrom, h]

/-- Unfolding the retry loop when the current attempt raises an
exception the loop does not catch. -/
theorem readFrom_succ_raise {att : Nat → Attempt} {i n : Nat} {e : PyErr}
    (h : oneAttempt (att i) = .raiseErr e) :
    readFrom att i (n + 1) = .error e := by
  simp [readFrom, h]

/-- If every remaining attempt fails with a caught error, the loop falls
through to `return None`. -/
theorem readFrom_all_fail {att : Nat → Attempt} {n : Nat} :
    ∀ {i : Nat}, (∀ k, i ≤ k → k < i + n → oneAttempt (att k) = .failCaught) →
    readFrom att i n = .ok none := by
  induction n with
  | zero => intro i _; rfl
  | succ n ih =>
    intro i h
    rw [readFrom_succ_fail (h i le_rfl (by omega))]
    exact ih fun k hk1 hk2 => h k (by omega) (by omega)

/-- If attempts `i ≤ k < j` fail with caught errors and attempt `j`
succeeds with reading `s`, the loop stops at `j` and returns `s`. -/
theorem readFrom_first_success {att : Nat → Attempt} {s : JVal} {n : Nat} :
    ∀ {i j : Nat}, i ≤ j → j < i + n →
    (∀ k, i ≤ k → k < j → oneAttempt (att k) = .failCaught) →
    oneAttempt (att j) = .success s →
    readFrom att i n = .ok (some s) := by
  induction n with
  | zero => intro i j _ _ _ _; omega
  | succ n ih =>
    intro i j hij hjn hfail hsucc
    rcases Nat.eq_or_lt_of_le hij with rfl | hlt
    · exact readFrom_succ_success hsucc
    · rw [readFrom_succ_fail (hfail i le_rfl hlt)]
      exact ih hlt (by omega) (fun k hk1 hk2 => hfail k (by omega) hk2) hsucc

/-- If no remaining attempt would raise an uncaught exception, the loop
returns normally. -/
theorem readFrom_no_raise {att : Nat → Attempt} {n : Nat} :
    ∀ {i : Nat}, (∀ k, i ≤ k → k < i + n → ∀ e, oneAttempt (att k) ≠ .raiseErr e) →
    ∃ r, readFrom att i n = .ok r := by
  induction n with
  | zero => intro i _; exact ⟨none, rfl⟩
  | succ n ih =>
    intro i h
    cases ho : oneAttempt (att i) with
    | failCaught =>
      rw [readFrom_succ_fail ho]
      exact ih fun k hk1 hk2 e => h k (by omega) (by omega) e
    | raiseErr e => exact absurd ho (h i le_rfl (by omega) e)
    | success s => exact ⟨some s, readFrom_succ_success ho⟩

/-- A reading returned by the retry loop was built by some attempt. -/
theorem readFrom_ok_some {att : Nat → Attempt} {s : JVal} {n : Nat} :
    ∀ {i : Nat}, readFrom att i n = .ok (some s) →
    ∃ j, oneAttempt (att j) = .success s := by
  induction n with
  | zero => intro i h; simp [readFrom] at h
  | succ n ih =>
    intro i h
    cases ho : oneAttempt (att i) with
    | failCaught => rw [readFrom_succ_fail ho] at h; exact ih h
    | raiseErr e => rw [readFrom_succ_raise ho] at h; simp at h
    | success s2 =>
      rw [readFrom_succ_success ho] at h
      simp only [Except.ok.injEq, Option.some.injEq] at h
      exact ⟨i, h ▸ ho⟩

/-- Every reading `oneAttempt` can build has all seven fields, with
every field a concrete string or number except possibly the humidity,
which is null exactly when the DHT returned `None`. -/
theorem oneAttempt_success_shape {a : Attempt} {s : JVal}
    (h : oneAttempt a = .success s) :
    ∃ ts cpu p1 p2 p3 tf hm,
      s = .jarr [.jstr ts, .jnum cpu, .jnum p1, .jnum p2, .jnum p3,
                 .jnum tf, hm] ∧
      (hm = .jnull ∨ ∃ q, hm = .jnum q) := by
  rcases a with ⟨pmOk, p1, p2, p3, temp, hm, cpu, ts⟩
  cases pmOk with
  | false => simp [oneAttempt] at h
  | true =>
    cases temp with
    | raiseRT => simp [oneAttempt] at h
    | val o =>
      cases o with
      | none => simp [oneAttempt] at h
      | some c =>
        cases hm with
        | raiseRT => simp [oneAttempt] at h
        | val ho =>
          simp only [oneAttempt, Bool.true_eq_false, if_false,
            AttemptRes.success.injEq] at h
          refine ⟨ts, cpu, p1, p2, p3, fahrenheit c, humJson ho, h.symm, ?_⟩
          cases ho with
          | none => exact Or.inl rfl
          | some q => exact Or.inr ⟨q, rfl⟩

/- Helper lemmas about one invocation. -/

/-- One invocation when `read_sensor` raises: the top-level handler runs,
`sleep_sensor` was skipped, nothing persisted changes. -/
theorem cycle_raise {env : Env} {s : St} {e : PyErr}
    (h : read_sensor env.att = .error e) :
    cycle env s = ⟨s, .success, [.wake, .acquire]⟩ := by
  simp [cycle, h]

/-- One invocation on the no-reading path. -/
theorem cycle_none {env : Env} {s : St}
    (h : read_sensor env.att = .ok none) :
    cycle env s = ⟨s, .success, [.wake, .acquire, .sleep]⟩ := by
  simp [cycle, h]

/-- One invocation once a reading was obtained. -/
theorem cycle_some {env : Env} {s : St} {r : JVal}
    (h : read_sensor env.att = .ok (some r)) :
    cycle env s = afterReading env s r := by
  simp [cycle, h]

/-- When the buffer file loads as a list, the invocation proceeds to the
flush decision over the appended list. -/
theorem afterReading_list {env : Env} {s : St} {r : JVal} {xs : List JVal}
    {w : Bool} (h : load_buffer s.bufferFile = .ok (.jarr xs, w)) :
    afterReading env s r = afterAppend env s (xs ++ [r]) := by
  simp [afterReading, h, appendReading]

/-- Flush branch, CSV write succeeds: the whole batch is appended to the
log and the buffer is persisted empty. -/
theorem afterAppend_flush_ok {env : Env} {s : St} {xs : List JVal}
    (hlen : WRITE_THRESHOLD ≤ xs.length) (hok : env.csvOk = true) :
    afterAppend env s xs =
      ⟨⟨save_buffer (.jarr []), s.log ++ xs⟩, .success,
       [.wake, .acquire, .sleep, .csvWrite, .save]⟩ := by
  simp [afterAppend, write_to_csv, hlen, hok]

/-- Flush branch, CSV write raises: the buffer file keeps its pre-cycle
content, only a prefix of the batch reached the log, `save_buffer` never
runs. -/
theorem afterAppend_flush_fail {env : Env} {s : St} {xs : List JVal}
    (hlen : WRITE_THRESHOLD ≤ xs.length) (hfail : env.csvOk = false) :
    afterAppend env s xs =
      ⟨⟨s.bufferFile, s.log ++ xs.take env.csvPrefixLen⟩, .success,
       [.wake, .acquire, .sleep, .csvWrite]⟩ := by
  simp [afterAppend, write_to_csv, hlen, hfail]

/-- Below the threshold: no flush, the appended buffer is persisted. -/
theorem afterAppend_noflush {env : Env} {s : St} {xs : List JVal}
    (hlen : xs.length < WRITE_THRESHOLD) :
    afterAppend env s xs =
      ⟨⟨save_buffer (.jarr xs), s.log⟩, .success,
       [.wake, .acquire, .sleep, .save]⟩ := by
  simp [afterAppend, Nat.not_le.mpr hlen]

/-- When the loaded buffer value has no `.append` (not a list), the
`AttributeError` jumps to the top-level handler: nothing persisted
changes and the run still ends with status 0. -/
theorem afterReading_append_err {env : Env} {s : St} {r b : JVal}
    {w : Bool} {e : PyErr}
    (hb : load_buffer s.bufferFile = .ok (b, w))
    (hap : appendReading b r = .error e) :
    afterReading env s r = ⟨s, .success, [.wake, .acquire, .sleep]⟩ := by
  simp [afterReading, hb, hap]

/-- When the append succeeds, the invocation proceeds to the flush
decision. -/
theorem afterReading_append_ok {env : Env} {s : St} {r b : JVal}
    {w : Bool} {xs : List JVal}
    (hb : load_buffer s.bufferFile = .ok (b, w))
    (hap : appendReading b r = .ok xs) :
    afterReading env s r = afterAppend env s xs := by
  simp [afterReading, hb, hap]

/-- When `load_buffer` raises (an existing buffer file whose bytes do
not decode), the invocation stops after `sleep_sensor`: nothing
persisted changes and the run still ends with status 0. -/
theorem afterReading_load_err {env : Env} {s : St} {r : JVal} {e : PyErr}
    (hb : load_buffer s.bufferFile = .error e) :
    afterReading env s r = ⟨s, .success, [.wake, .acquire, .sleep]⟩ := by
  simp [afterReading, hb]

/-- Every invocation path yields the success exit status (the `except`
handler only prints and the script then ends normally; `exit()` raises
`SystemExit`, also status 0). -/
theorem cycle_exit_success (env : Env) (s : St) :
    (cycle env s).exit = ExitStatus.success := by
  cases hr : read_sensor env.att with
  | error e => rw [cycle_raise hr]
  | ok o =>
    cases o with
    | none => rw [cycle_none hr]
    | some r =>
      rw [cycle_some hr]
      cases hb : load_buffer s.bufferFile with
      | error e => rw [afterReading_load_err hb]
      | ok p =>
        obtain ⟨b, w⟩ := p
        cases hap : appendReading b r with
        | error e => rw [afterReading_append_err hb hap]
        | ok xs =>
          rw [afterReading_append_ok hb hap]
          rcases Nat.lt_or_ge xs.length WRITE_THRESHOLD with hlen | hlen
          · rw [afterAppend_noflush hlen]
          · cases hok : env.csvOk with
            | false => rw [afterAppend_flush_fail hlen hok]
            | true => rw [afterAppend_flush_ok hlen hok]

/-- If `save_buffer` never ran during the invocation, the buffer file is
exactly what it was before the invocation. -/
theorem cycle_nosave_frame (env : Env) (s : St)
    (h : Event.save ∉ (cycle env s).trace) :
    (cycle env s).st.bufferFile = s.bufferFile := by
  cases hr : read_sensor env.att with
  | error e => rw [cycle_raise hr]
  | ok o =>
    cases o with
    | none => rw [cycle_none hr]
    | some r =>
      rw [cycle_some hr] at h ⊢
      cases hb : load_buffer s.bufferFile with
      | error e => rw [afterReading_load_err hb]
      | ok p =>
        obtain ⟨b, w⟩ := p
        cases hap : appendReading b r with
        | error e => rw [afterReading_append_err hb hap]
        | ok xs =>
          rw [afterReading_append_ok hb hap] at h ⊢
          rcases Nat.lt_or_ge xs.length WRITE_THRESHOLD with hlen | hlen
          · rw [afterAppend_noflush hlen] at h
            simp at h
          · cases hok : env.csvOk with
            | false => rw [afterAppend_flush_fail hlen hok]
            | true =>
              rw [afterAppend_flush_ok hlen hok] at h
              simp at h

/-- If `save_buffer` ran, what it persisted is a list shorter than the
threshold: the empty list after a successful flush, or the appended
buffer when the threshold was not reached. -/
theorem cycle_save_short (env : Env) (s : St)
    (h : Event.save ∈ (cycle env s).trace) :
    ∃ ys, (cycle env s).st.bufferFile = .valid (.jarr ys) ∧
      ys.length < WRITE_THRESHOLD := by
  cases hr : read_sensor env.att with
  | error e => rw [cycle_raise hr] at h; simp at h
  | ok o =>
    cases o with
    | none => rw [cycle_none hr] at h; simp at h
    | some r =>
      rw [cycle_some hr] at h ⊢
      cases hb : load_buffer s.bufferFile with
      | error e => rw [afterReading_load_err hb] at h; simp at h
      | ok p =>
        obtain ⟨b, w⟩ := p
        cases hap : appendReading b r with
        | error e => rw [afterReading_append_err hb hap] at h; simp at h
        | ok xs =>
          rw [afterReading_append_ok hb hap] at h ⊢
          rcases Nat.lt_or_ge xs.length WRITE_THRESHOLD with hlen | hlen
          · rw [afterAppend_noflush hlen]
            exact ⟨xs, rfl, hlen⟩
          · cases hok : env.csvOk with
            | false =>
              rw [afterAppend_flush_fail hlen hok] at h
              simp at h
            | true =>
              rw [afterAppend_flush_ok hlen hok]
              exact ⟨[], rfl, by simp [WRITE_THRESHOLD]⟩

/-- `write_to_csv` is invoked exactly when the appended buffer reaches
the threshold (equality included). -/
theorem afterAppend_csvWrite_iff (env : Env) (s : St) (xs : List JVal) :
    Event.csvWrite ∈ (afterAppend env s xs).trace ↔
      WRITE_THRESHOLD ≤ xs.length := by
  rcases Nat.lt_or_ge xs.length WRITE_THRESHOLD with hlen | hlen
  · rw [afterAppend_noflush hlen]
    constructor
    · intro h
      simp only [List.mem_cons, List.not_mem_nil, or_false] at h
      rcases h with h | h | h | h <;> cases h
    · intro h; omega
  · cases hok : env.csvOk with
    | false => rw [afterAppend_flush_fail hlen hok]; simp [hlen]
    | true => rw [afterAppend_flush_ok hlen hok]; simp [hlen]

/-- Whenever `read_sensor` returns (with or without a reading), the
invocation trace begins wake, acquire, sleep. -/
theorem cycle_trace_starts (env : Env) (s : St) (o : Option JVal)
    (h : read_sensor env.att = .ok o) :
    (cycle env s).trace.take 3 = [Event.wake, Event.acquire, Event.sleep] := by
  cases o with
  | none => rw [cycle_none h]; rfl
  | some r =>
    rw [cycle_some h]
    cases hb : load_buffer s.bufferFile with
    | error e => rw [afterReading_load_err hb]; rfl
    | ok p =>
      obtain ⟨b, w⟩ := p
      cases hap : appendReading b r with
      | error e => rw [afterReading_append_err hb hap]; rfl
      | ok xs =>
        rw [afterReading_append_ok hb hap]
        rcases Nat.lt_or_ge xs.length WRITE_THRESHOLD with hlen | hlen
        · rw [afterAppend_noflush hlen]; rfl
        · cases hok : env.csvOk with
          | false => rw [afterAppend_flush_fail hlen hok]; rfl
          | true => rw [afterAppend_flush_ok hlen hok]; rfl

/-- One invocation with a reading, a successful CSV write, and a
well-formed buffer below the threshold: the persisted buffer length
steps to its successor modulo the threshold. -/
theorem cycle_good_step {env : Env} {s : St} {xs : List JVal} {w : Bool}
    {r : JVal}
    (hload : load_buffer s.bufferFile = .ok (.jarr xs, w))
    (hread : read_sensor env.att = .ok (some r))
    (hok : env.csvOk = true)
    (hlen : xs.length < WRITE_THRESHOLD) :
    ∃ ys, (cycle env s).st.bufferFile = .valid (.jarr ys) ∧
      ys.length = (xs.length + 1) % WRITE_THRESHOLD := by
  rw [cycle_some hread, afterReading_list hload]
  rcases Nat.lt_or_ge (xs ++ [r]).length WRITE_THRESHOLD with hc | hc
  · rw [afterAppend_noflush hc]
    refine ⟨xs ++ [r], rfl, ?_⟩
    simp only [List.length_append, List.length_singleton] at hc ⊢
    simp only [WRITE_THRESHOLD] at hc ⊢
    omega
  · rw [afterAppend_flush_ok hc hok]
    refine ⟨[], rfl, ?_⟩
    simp only [List.length_append, List.length_singleton] at hc
    simp only [WRITE_THRESHOLD] at hc hlen ⊢
    simp only [List.length_nil]
    omega

/-- Over any run of invocations that all obtain a reading and whose CSV
writes all succeed, a well-formed buffer keeps its length congruent to
the number of completed cycles modulo the threshold. -/
theorem runCycles_good {envs : List Env} :
    ∀ {s : St} {xs : List JVal},
    (∀ e ∈ envs, (∃ r, read_sensor e.att = .ok (some r)) ∧ e.csvOk = true) →
    s.bufferFile = .valid (.jarr xs) → xs.length < WRITE_THRESHOLD →
    ∃ ys, (runCycles envs s).bufferFile = .valid (.jarr ys) ∧
      ys.length = (xs.length + envs.length) % WRITE_THRESHOLD := by
  induction envs with
  | nil =>
    intro s xs _ hb hl
    refine ⟨xs, hb, ?_⟩
    simp only [List.length_nil, Nat.add_zero, WRITE_THRESHOLD] at hl ⊢
    omega
  | cons e es ih =>
    intro s xs hall hb hl
    obtain ⟨⟨r, hr⟩, hok⟩ := hall e (List.mem_cons_self e es)
    have hload : load_buffer s.bufferFile = .ok (.jarr xs, false) := by
      rw [hb]; rfl
    obtain ⟨ys, hys, hlen⟩ := cycle_good_step hload hr hok hl
    have hysl : ys.length < WRITE_THRESHOLD := by
      rw [hlen]
      exact Nat.mod_lt _ (by simp [WRITE_THRESHOLD])
    obtain ⟨zs, hz, hzl⟩ :=
      ih (fun x hx => hall x (List.mem_cons_of_mem e hx)) hys hysl
    refine ⟨zs, ?_, ?_⟩
    · show (runCycles es (cycle e s).st).bufferFile = _
      exact hz
    · rw [hzl, hlen]
      simp only [List.length_cons, WRITE_THRESHOLD]
      omega

/-- Evaluation of `read_sensor` on the all-good environment: the
expected complete sample (20 °C is 68 °F). -/
theorem read_good : read_sensor (fun _ => goodAttempt) = .ok (some goodSample) := by
  have h : (68 : ℚ) = fahrenheit 20 := by norm_num [fahrenheit]
  rw [goodSample, h]
  rfl

/- Claim theorems. -/

/-- C1, counterexample: on a flush-triggering cycle whose CSV write
fails, the claim says the persisted buffer still contains the full
un-flushed batch.  Concretely: with five buffered rows, a good reading
(the batch is `buf5 ++ [goodSample]`, reaching the threshold) and a
failing write, the persisted buffer afterwards is exactly the five old
rows and the new sample is not among them — it was never persisted. -/
theorem csv_failure_loses_new_sample_cex :
    read_sensor envWriteFail.att = .ok (some goodSample) ∧
    buf5.length + 1 = WRITE_THRESHOLD ∧
    envWriteFail.csvOk = false ∧
    (cycle envWriteFail stBuf5).st.bufferFile = .valid (.jarr buf5) ∧
    goodSample ∉ buf5 := by
  refine ⟨read_good, rfl, rfl, rfl, ?_⟩
  simp [goodSample, buf5, rowTagged]

/-- C1, amended: if the CSV write fails on a flush-triggering cycle, the
buffer file is left exactly as before the cycle — the previously
persisted samples are retained and the buffer is not cleared — but the
cycle's newly acquired sample is lost (`save_buffer` is never reached),
while only a prefix of the batch may have reached the log.  A subsequent
successful cycle flushes the retained samples together with its own new
sample (not a superset of the failed batch: the lost sample is absent). -/
theorem csv_failure_keeps_prior_buffer (env env2 : Env) (s : St)
    (xs : List JVal) (w : Bool) (r r2 : JVal)
    (hload : load_buffer s.bufferFile = .ok (.jarr xs, w))
    (hread : read_sensor env.att = .ok (some r))
    (hfull : WRITE_THRESHOLD ≤ xs.length + 1)
    (hfail : env.csvOk = false)
    (hread2 : read_sensor env2.att = .ok (some r2))
    (hok2 : env2.csvOk = true) :
    (cycle env s).st.bufferFile = s.bufferFile ∧
    (cycle env s).st.log = s.log ++ (xs ++ [r]).take env.csvPrefixLen ∧
    (cycle env2 (cycle env s).st).st.bufferFile = .valid (.jarr []) ∧
    (cycle env2 (cycle env s).st).st.log =
      (cycle env s).st.log ++ (xs ++ [r2]) := by
  have hlen : WRITE_THRESHOLD ≤ (xs ++ [r]).length := by simpa using hfull
  have h1 : cycle env s =
      ⟨⟨s.bufferFile, s.log ++ (xs ++ [r]).take env.csvPrefixLen⟩, .success,
       [.wake, .acquire, .sleep, .csvWrite]⟩ := by
    rw [cycle_some hread, afterReading_list hload, afterAppend_flush_fail hlen hfail]
  have hload2 : load_buffer (cycle env s).st.bufferFile = .ok (.jarr xs, w) := by
    rw [h1]; exact hload
  have hlen2 : WRITE_THRESHOLD ≤ (xs ++ [r2]).length := by simpa using hfull
  have h2 : cycle env2 (cycle env s).st =
      ⟨⟨save_buffer (.jarr []), (cycle env s).st.log ++ (xs ++ [r2])⟩, .success,
       [.wake, .acquire, .sleep, .csvWrite, .save]⟩ := by
    rw [cycle_some hread2, afterReading_list hload2, afterAppend_flush_ok hlen2 hok2]
  exact ⟨by rw [h1], by rw [h1], by rw [h2]; rfl, by rw [h2]⟩

/-- Witness for C1's amended theorem at the concrete failing-write
scenario. -/
theorem csv_failure_keeps_prior_buffer_witness :
    (cycle envWriteFail stBuf5).st.bufferFile = stBuf5.bufferFile ∧
    (cycle envWriteFail stBuf5).st.log =
      stBuf5.log ++ (buf5 ++ [goodSample]).take envWriteFail.csvPrefixLen ∧
    (cycle envGood (cycle envWriteFail stBuf5).st).st.bufferFile =
      .valid (.jarr []) ∧
    (cycle envGood (cycle envWriteFail stBuf5).st).st.log =
      (cycle envWriteFail stBuf5).st.log ++ (buf5 ++ [goodSample]) :=
  csv_failure_keeps_prior_buffer envWriteFail envGood stBuf5 buf5 false
    goodSample goodSample rfl read_good (by decide) rfl read_good rfl

/-- C2, counterexample: `read_sensor` can raise to its caller.  With
`maxAttempts = 10` and a first attempt on which the DHT temperature read
returns `None`, `temperature_c * (9 / 5)` raises `TypeError`, which the
`except RuntimeError` clause does not catch, so `read_sensor`
propagates it instead of returning. -/
theorem read_sensor_raises_on_none_temperature_cex :
    read_sensor (fun _ => badTempAttempt) 10 = .error .typeError := rfl

/-- C2, amended: provided no attempt raises an uncaught exception (in
particular no attempt yields a `None` temperature), `read_sensor` never
raises: it returns normally; if every attempt fails with the caught
transient error it returns `None`; and if attempt `j` is the first to
succeed it returns that sample immediately, with the result independent
of the attempt environments after `j` (the remaining attempts are not
consumed). -/
theorem read_sensor_retry_contract (att : Nat → Attempt) (retries : Nat)
    (hwb : ∀ i, i < retries → ∀ e, oneAttempt (att i) ≠ .raiseErr e) :
    (∃ r, read_sensor att retries = .ok r) ∧
    ((∀ i, i < retries → oneAttempt (att i) = .failCaught) →
      read_sensor att retries = .ok none) ∧
    (∀ j s, j < retries → (∀ k, k < j → oneAttempt (att k) = .failCaught) →
      oneAttempt (att j) = .success s →
      ∀ att2 : Nat → Attempt, (∀ k, k ≤ j → att2 k = att k) →
        read_sensor att2 retries = .ok (some s)) := by
  refine ⟨?_, ?_, ?_⟩
  · exact readFrom_no_raise fun k hk1 hk2 e => hwb k (by omega) e
  · intro hall
    exact readFrom_all_fail fun k hk1 hk2 => hall k (by omega)
  · intro j s hj hfail hsucc att2 hagree
    refine readFrom_first_success (Nat.zero_le j) (by omega) ?_ ?_
    · intro k hk1 hk2
      rw [hagree k (by omega)]
      exact hfail k hk2
    · rw [hagree j le_rfl]
      exact hsucc

/-- Witness for C2's amended theorem: three attempts, all failing with
the caught transient error, so the contract yields the `None` outcome. -/
theorem read_sensor_retry_contract_witness :
    (∃ r, read_sensor (fun _ => rtFailAttempt) 3 = .ok r) ∧
    ((∀ i, i < 3 → oneAttempt ((fun _ => rtFailAttempt) i) = .failCaught) →
      read_sensor (fun _ => rtFailAttempt) 3 = .ok none) ∧
    (∀ j s, j < 3 →
      (∀ k, k < j → oneAttempt ((fun _ => rtFailAttempt) k) = .failCaught) →
      oneAttempt ((fun _ => rtFailAttempt) j) = .success s →
      ∀ att2 : Nat → Attempt, (∀ k, k ≤ j → att2 k = (fun _ => rtFailAttempt) k) →
        read_sensor att2 3 = .ok (some s)) :=
  read_sensor_retry_contract (fun _ => rtFailAttempt) 3
    (by intro i _ e h; simp [oneAttempt, rtFailAttempt] at h)

/-- C3, counterexample: an attempt on which the DHT humidity read
returns `None` is treated as a success, and `read_sensor` returns a
sample whose humidity field is null — a sample with a missing field
reaches the caller. -/
theorem read_sensor_null_humidity_cex :
    read_sensor (fun _ => noHumAttempt) =
      .ok (some (.jarr [.jstr "ts", .jnum 50, .jnum 1, .jnum 2, .jnum 3,
                        .jnum 68, .jnull])) ∧
    JVal.jnull ∈ [JVal.jstr "ts", .jnum 50, .jnum 1, .jnum 2, .jnum 3,
                  .jnum 68, .jnull] := by
  constructor
  · have h : (68 : ℚ) = fahrenheit 20 := by norm_num [fahrenheit]
    rw [h]; rfl
  · simp

/-- C3, amended: every sample `read_sensor` returns has all seven
fields, and every field is a concrete string or number except possibly
the humidity, which is null exactly when the DHT returned `None` (such
an attempt is treated as success, not failure; a `None` temperature, by
contrast, raises out of `read_sensor` rather than failing the attempt). -/
theorem read_sensor_sample_shape (att : Nat → Attempt) (retries : Nat)
    (s : JVal) (h : read_sensor att retries = .ok (some s)) :
    ∃ ts cpu p1 p2 p3 tf hm,
      s = .jarr [.jstr ts, .jnum cpu, .jnum p1, .jnum p2, .jnum p3,
                 .jnum tf, hm] ∧
      (hm = .jnull ∨ ∃ q, hm = .jnum q) := by
  obtain ⟨j, hj⟩ := readFrom_ok_some h
  exact oneAttempt_success_shape hj

/-- Witness for C3's amended theorem at the `None`-humidity sample. -/
theorem read_sensor_sample_shape_witness :
    ∃ ts cpu p1 p2 p3 tf hm,
      JVal.jarr [.jstr "ts", .jnum 50, .jnum 1, .jnum 2, .jnum 3,
                 .jnum 68, .jnull] =
        .jarr [.jstr ts, .jnum cpu, .jnum p1, .jnum p2, .jnum p3,
               .jnum tf, hm] ∧
      (hm = .jnull ∨ ∃ q, hm = .jnum q) :=
  read_sensor_sample_shape (fun _ => noHumAttempt) 10 _
    (by have h : (68 : ℚ) = fahrenheit 20 := by norm_num [fahrenheit]
        rw [h]; rfl)

/-- C4: (1) whenever a run persists the buffer, the persisted list is
strictly shorter than `WRITE_THRESHOLD`; (2) the flush (the
`write_to_csv` call) fires exactly when the post-append buffer length
reaches the threshold — equality triggers; (3) over any number of
consecutive fully successful cycles starting from an empty buffer, the
persisted buffer length equals the number of cycles modulo
`WRITE_THRESHOLD`. -/
theorem buffer_threshold_invariant :
    (∀ env s, Event.save ∈ (cycle env s).trace →
      ∃ ys, (cycle env s).st.bufferFile = .valid (.jarr ys) ∧
        ys.length < WRITE_THRESHOLD) ∧
    (∀ env s xs w r, load_buffer s.bufferFile = .ok (.jarr xs, w) →
      read_sensor env.att = .ok (some r) →
      (Event.csvWrite ∈ (cycle env s).trace ↔
        WRITE_THRESHOLD ≤ xs.length + 1)) ∧
    (∀ envs : List Env,
      (∀ e ∈ envs, (∃ r, read_sensor e.att = .ok (some r)) ∧ e.csvOk = true) →
      ∃ ys, (runCycles envs ⟨.valid (.jarr []), []⟩).bufferFile =
          .valid (.jarr ys) ∧
        ys.length = envs.length % WRITE_THRESHOLD) := by
  refine ⟨cycle_save_short, ?_, ?_⟩
  · intro env s xs w r hl hr
    rw [cycle_some hr, afterReading_list hl, afterAppend_csvWrite_iff]
    simp
  · intro envs hall
    obtain ⟨ys, h1, h2⟩ :=
      @runCycles_good envs ⟨.valid (.jarr []), []⟩ [] hall rfl
        (by simp [WRITE_THRESHOLD])
    exact ⟨ys, h1, by simpa using h2⟩

/-- C5, counterexample: `load_buffer` can raise.  On an existing buffer
file whose bytes do not decode as text, `json.load` raises
`UnicodeDecodeError`, which `except json.JSONDecodeError` (line 217)
does not catch; with a good reading available, the cycle then aborts
after `sleep_sensor` with no buffer mutation — it does not proceed
normally, and the reading is lost. -/
theorem load_buffer_raises_cex :
    load_buffer FileContent.undecodable = .error .unicodeDecodeError ∧
    read_sensor envGood.att = .ok (some goodSample) ∧
    (cycle envGood stUndecodable).trace = [Event.wake, Event.acquire, Event.sleep] ∧
    (cycle envGood stUndecodable).st = stUndecodable :=
  ⟨rfl, read_good, rfl, rfl⟩

/-- C5, amended: `load_buffer` fails soft on an absent file (empty list,
no warning) and on a file that decodes but fails JSON parsing (empty
list, corruption warning printed — the `Bool` component records the
warning), and returns normally on every buffer-file state except one:
an existing file whose bytes do not decode, where `json.load`'s
`UnicodeDecodeError` escapes the `except json.JSONDecodeError` clause
and `load_buffer` raises.  In that case the cycle skips all buffer and
log mutation and the process still exits with success status. -/
theorem load_buffer_fail_soft :
    (∀ fc, fc ≠ FileContent.undecodable → ∃ p, load_buffer fc = .ok p) ∧
    load_buffer .absent = .ok (.jarr [], false) ∧
    load_buffer .invalid = .ok (.jarr [], true) ∧
    (∀ env s r, read_sensor env.att = .ok (some r) →
      s.bufferFile = FileContent.undecodable →
      cycle env s = ⟨s, .success, [.wake, .acquire, .sleep]⟩) := by
  refine ⟨?_, rfl, rfl, ?_⟩
  · intro fc h
    cases fc with
    | absent => exact ⟨_, rfl⟩
    | undecodable => exact absurd rfl h
    | invalid => exact ⟨_, rfl⟩
    | valid v => exact ⟨_, rfl⟩
  · intro env s r hr hs
    rw [cycle_some hr]
    have hb : load_buffer s.bufferFile = .error PyErr.unicodeDecodeError := by
      rw [hs]
      rfl
    exact afterReading_load_err hb

/-- C6, counterexample: an unexpected fault does not exit with failure
status.  With a good reading but a buffer file holding a JSON object,
`buffer.append` raises `AttributeError`; the top-level handler only
prints, so the process exits with success status (the run stopped after
`sleep_sensor`, mutating nothing). -/
theorem fault_exits_success_cex :
    read_sensor envGood.att = .ok (some goodSample) ∧
    (cycle envGood stBadBuf).trace = [Event.wake, Event.acquire, Event.sleep] ∧
    (cycle envGood stBadBuf).st = stBadBuf ∧
    (cycle envGood stBadBuf).exit = ExitStatus.success ∧
    ExitStatus.success ≠ ExitStatus.failure :=
  ⟨read_good, rfl, rfl, rfl, by decide⟩

/-- C6, amended: every invocation — normal, no-reading, or one hitting
an unexpected fault caught by the top-level handler — exits with
success status (the handler only logs; only the UART-open failure at
startup exits non-zero), so exit status does not distinguish faults.
The non-mutation half of the claim holds: on any path where
`save_buffer` did not run, the buffer file is untouched. -/
theorem cycle_exit_status :
    (∀ env s, (cycle env s).exit = ExitStatus.success) ∧
    (∀ env s, Event.save ∉ (cycle env s).trace →
      (cycle env s).st.bufferFile = s.bufferFile) :=
  ⟨cycle_exit_success, cycle_nosave_frame⟩

/-- C7, counterexample: sensor power-down does not always execute.  If
`read_sensor` raises (here: `TypeError` from a `None` temperature),
control jumps from line 251 straight to the top-level handler and
`sleep_sensor()` on line 252 is skipped — there is no `finally` or
context manager releasing the sensor. -/
theorem sleep_sensor_skipped_cex :
    read_sensor envBadTemp.att = .error .typeError ∧
    (cycle envBadTemp st0).trace = [Event.wake, Event.acquire] ∧
    Event.sleep ∉ [Event.wake, Event.acquire] :=
  ⟨rfl, rfl, by decide⟩

/-- C7, amended: whenever `read_sensor` returns to the orchestration
(with a reading or with `None`), `sleep_sensor` executes immediately
after the acquisition step, before any buffer or log activity; only
when acquisition raises is the power-down skipped. -/
theorem sleep_sensor_after_return (env : Env) (s : St) (o : Option JVal)
    (h : read_sensor env.att = .ok o) :
    (cycle env s).trace.take 3 = [Event.wake, Event.acquire, Event.sleep] :=
  cycle_trace_starts env s o h

/-- Witness for C7's amended theorem on a fully successful invocation. -/
theorem sleep_sensor_after_return_witness :
    (cycle envGood st0).trace.take 3 =
      [Event.wake, Event.acquire, Event.sleep] :=
  sleep_sensor_after_return envGood st0 (some goodSample) read_good

/-- C8: on a cycle where acquisition exhausts its retries and returns
`None`, the buffer file and the log are both exactly as before the
cycle, `write_to_csv` and `save_buffer` never run, and the process
still exits with success status. -/
theorem no_reading_frame (env : Env) (s : St)
    (h : read_sensor env.att = .ok none) :
    (cycle env s).st = s ∧ (cycle env s).exit = ExitStatus.success ∧
    Event.csvWrite ∉ (cycle env s).trace ∧
    Event.save ∉ (cycle env s).trace := by
  rw [cycle_none h]
  refine ⟨rfl, rfl, ?_, ?_⟩
  · show Event.csvWrite ∉ [Event.wake, Event.acquire, Event.sleep]
    decide
  · show Event.save ∉ [Event.wake, Event.acquire, Event.sleep]
    decide

/-- Witness for C8 at ten consecutive caught sensor failures over a
five-row buffer. -/
theorem no_reading_frame_witness :
    (cycle envAllFail stBuf5).st = stBuf5 ∧
    (cycle envAllFail stBuf5).exit = ExitStatus.success ∧
    Event.csvWrite ∉ (cycle envAllFail stBuf5).trace ∧
    Event.save ∉ (cycle envAllFail stBuf5).trace :=
  no_reading_frame envAllFail stBuf5 rfl

/-- C9: round-trip of the persisted buffer.  For any sequence of
samples, `save_buffer` leaves the file holding exactly that sequence
(the prior content is fully replaced — the result does not depend on
it), and `load_buffer` then returns it unchanged. -/
theorem save_load_roundtrip :
    ∀ x : List JVal,
      save_buffer (.jarr x) = .valid (.jarr x) ∧
      load_buffer (save_buffer (.jarr x)) = .ok (.jarr x, false) :=
  fun _ => ⟨rfl, rfl⟩

/-- C10: the empty-list fallback of `load_buffer` applies only to file
absence or parse failure: any value that parses is returned unchanged,
including wrong-shaped ones — a JSON object or a JSON string is
returned as itself, not treated as an empty buffer. -/
theorem load_buffer_returns_parsed_value :
    (∀ v, load_buffer (.valid v) = .ok (v, false)) ∧
    (load_buffer (.valid .jobj) = .ok (.jobj, false) ∧
      JVal.jobj ≠ .jarr []) ∧
    (load_buffer (.valid (.jstr "nope")) = .ok (.jstr "nope", false) ∧
      JVal.jstr "nope" ≠ .jarr []) :=
  ⟨fun v => rfl, ⟨rfl, by simp⟩, ⟨rfl, by simp⟩⟩

end PM25
